import Mathlib

/-
  Verification development for the WGPU-Template repository.

  Shallow embedding conventions:
  * f32/f64 values are modelled as exact rationals (ℚ); the render-loop
    claims checked here do not depend on floating-point rounding, and every
    place where rounding could matter is noted next to the definition.
  * u32/usize casts are modelled with explicit `% 2^32` / `% 2^64`.
  * `std::time::Duration` and `Instant` are modelled in whole nanoseconds
    (`Nat`), which is their actual resolution; `Duration / u32` truncates to
    nanoseconds, matching `Nat.div`.
  * Fallible Rust functions returning `Result` become `Except`; a Rust panic
    reached inside an embedded function is modelled as a distinguished error
    constructor, and is noted where it is used.
  * GPU handles (buffers, texture views, bind groups, pipelines) are opaque
    identifiers (`String`); the embedding tracks which handle each recorded
    command references, not GPU memory.
-/

/- ===================================================================
   Engine configuration loading (src/load/mod.rs, `load_engine_config`
   and the `read_hjson_*` helpers).
   The hjson text itself is decoded by the external `serde_hjson` crate;
   the embedding therefore takes the decode result as its input: `.error`
   stands for `serde_hjson::from_str` failing on malformed text, `.ok m`
   for a successfully decoded top-level map.
   =================================================================== -/

/-- Decoded hjson value, mirroring `serde_hjson::Value`. Arrays and objects
are collapsed into `composite` because every accessor used by the config
loader (`as_str`, `as_i64`, `as_f64`, `as_bool`) rejects them alike. -/
inductive HjsonValue
| null
| bool (b : Bool)
| i64 (n : Int)
| f64 (x : Rat)
| str (s : String)
| composite
deriving DecidableEq, Repr

def HjsonValue.as_str : HjsonValue → Option String
| .str s => some s
| _ => none

def HjsonValue.as_i64 : HjsonValue → Option Int
| .i64 n => some n
| _ => none

def HjsonValue.as_f64 : HjsonValue → Option Rat
| .i64 n => some (n : Rat)
| .f64 x => some x
| _ => none

def HjsonValue.as_bool : HjsonValue → Option Bool
| .bool b => some b
| _ => none

/-- `serde_hjson::Map<String, Value>` holds one value per key; modelled as an
association list queried with `List.lookup` (first match). -/
def ConfigMap : Type := List (String × HjsonValue)

def ConfigMap.get (m : ConfigMap) (key : String) : Option HjsonValue :=
  List.lookup key m

/-- `read_hjson_str`: a present string value is used, a present non-string
value falls back to the default (with a warning), a missing key falls back
to the default (with a warning). -/
def read_hjson_str (m : ConfigMap) (key : String) (default : String) : String :=
  match m.get key with
  | some v => (v.as_str).getD default
  | none => default

def read_hjson_i64 (m : ConfigMap) (key : String) (default : Int) : Int :=
  match m.get key with
  | some v => (v.as_i64).getD default
  | none => default

def read_hjson_f64 (m : ConfigMap) (key : String) (default : Rat) : Rat :=
  match m.get key with
  | some v => (v.as_f64).getD default
  | none => default

def read_hjson_bool (m : ConfigMap) (key : String) (default : Bool) : Bool :=
  match m.get key with
  | some v => (v.as_bool).getD default
  | none => default

inductive Backends
| all
| vulkan
| dx12
| metal
| gl
deriving DecidableEq, Repr

inductive PresentMode
| autoVsync
| autoNoVsync
| fifo
| fifoRelaxed
| immediate
| mailbox
deriving DecidableEq, Repr

/-- `str::to_lowercase()`, modelled character-wise with `Char.toLower`.
Known divergence: `Char.toLower` only lowers ASCII, while the source's
mapping is full Unicode (e.g. U+212A KELVIN SIGN lowers to 'k' in Rust but
not here), so the model treats a few exotic spellings of the keywords as
unknown where the source would recognize them; both sides agree on every
ASCII input, and the theorems below only compare ASCII literals. -/
def rust_to_lowercase (s : String) : String :=
  String.mk (s.toList.map Char.toLower)

/-- The `rendering_backend` match in `load_engine_config`: unknown strings
warn and default to `Backends::all()`. -/
def backend_of_string (s : String) : Backends :=
  match s with
  | "auto" => .all
  | "vulkan" => .vulkan
  | "dx12" => .dx12
  | "metal" => .metal
  | "opengl" => .gl
  | _ => .all

/-- The `present_mode` match in `load_engine_config`. Note that the source
maps the string "auto_no_vsync" to `wgpu::PresentMode::AutoVsync` (the same
arm result as "auto_vsync"); unknown strings warn and default to AutoVsync. -/
def present_mode_of_string (s : String) : PresentMode :=
  match s with
  | "auto_vsync" => .autoVsync
  | "auto_no_vsync" => .autoVsync
  | "fifo" => .fifo
  | "fifo_relaxed" => .fifoRelaxed
  | "immediate" => .immediate
  | "mailbox" => .mailbox
  | _ => .autoVsync

/-- `EngineConfig` as constructed by `load_engine_config` in
src/load/mod.rs. `min_frame_time` is a `Duration` built with
`Duration::from_secs_f64`, modelled as exact seconds in ℚ. -/
structure EngineConfig where
  rendering_backend : Backends
  present_mode : PresentMode
  desired_frame_latency : Nat
  min_frame_time : Rat
  shadowmap_size : Nat
  compress_textures : Bool
deriving DecidableEq, Repr

/-- `config_version as usize` on an i64 (wrapping cast). -/
def usize_of_i64 (n : Int) : Nat := (n % 18446744073709551616).toNat

/-- `i64 as u32` (wrapping cast), used for `desired_frame_latency` and
`shadowmap_size`. -/
def u32_of_i64 (n : Int) : Nat := (n % 4294967296).toNat

/-- `CONFIG_UPDATER_FUNCTIONS` is the empty slice in the source. -/
def config_updater_count : Nat := 0

/-- `LATEST_CONFIG_VERSION = CONFIG_UPDATER_FUNCTIONS.len() + 1`. -/
def latest_config_version : Nat := config_updater_count + 1

inductive ConfigLoadError
/-- `serde_hjson::from_str` failed; propagated by the source with
`.context("Failed to decode 'engine config.hjson'")?`. -/
| decodeFailed
/-- A Rust panic inside `load_engine_config`: either the updater loop
indexing the empty `CONFIG_UPDATER_FUNCTIONS` slice (any iteration runs
`[i - 1]` on an empty slice, and `i = 0` additionally underflows), or
`Duration::from_secs_f64` on a `min_frame_time` that is negative or
overflows a `Duration` (at least 2^64 seconds, reachable from a finite
decoded f64 such as 1e20). -/
| crashed
deriving DecidableEq, Repr

/-- `load_engine_config` (src/load/mod.rs). Input is the result of decoding
the config text (file reads falling back to the bundled default text happen
before decoding and do not change the shape of this function). The updater
loop `for i in config_version as usize .. LATEST_CONFIG_VERSION` runs at
least one iteration exactly when `config_version as usize <
LATEST_CONFIG_VERSION`, and every iteration panics on the empty updater
slice. -/
def load_engine_config (input : Except Unit ConfigMap) : Except ConfigLoadError EngineConfig :=
  match input with
  | .error _ => .error .decodeFailed
  | .ok m =>
    let config_version := read_hjson_i64 m "config_version" (Int.ofNat latest_config_version)
    if usize_of_i64 config_version < latest_config_version then .error .crashed else
    let rendering_backend := backend_of_string (rust_to_lowercase (read_hjson_str m "rendering_backend" "auto"))
    let present_mode := present_mode_of_string (rust_to_lowercase (read_hjson_str m "present_mode" "auto_vsync"))
    let desired_frame_latency := u32_of_i64 (read_hjson_i64 m "desired_frame_latency" 1)
    let min_frame_time_f64 := read_hjson_f64 m "min_frame_time" 0.002
    if min_frame_time_f64 < 0 ∨ 18446744073709551616 ≤ min_frame_time_f64 then
      .error .crashed else
    .ok {
      rendering_backend := rendering_backend
      present_mode := present_mode
      desired_frame_latency := desired_frame_latency
      min_frame_time := min_frame_time_f64
      shadowmap_size := u32_of_i64 (read_hjson_i64 m "shadowmap_size" 512)
      compress_textures := read_hjson_bool m "compress_textures" true
    }

/-- The configuration produced when every entry is missing: the documented
defaults. -/
def default_engine_config : EngineConfig :=
  { rendering_backend := .all
    present_mode := .autoVsync
    desired_frame_latency := 1
    min_frame_time := 0.002
    shadowmap_size := 512
    compress_textures := true }

/- ===================================================================
   glam vector / matrix math used by the embedded code, over exact ℚ.
   `from_translation`, `from_quat` and matrix multiplication are purely
   polynomial in their inputs, so the ℚ model computes the very products
   the f32 code computes (before rounding).
   =================================================================== -/

structure Vec3Q where
  x : Rat
  y : Rat
  z : Rat
deriving DecidableEq, Repr

structure Vec4Q where
  x : Rat
  y : Rat
  z : Rat
  w : Rat
deriving DecidableEq, Repr

structure QuatQ where
  x : Rat
  y : Rat
  z : Rat
  w : Rat
deriving DecidableEq, Repr

/-- Column-major 4×4 matrix, like `glam::Mat4`. -/
structure Mat4Q where
  x_axis : Vec4Q
  y_axis : Vec4Q
  z_axis : Vec4Q
  w_axis : Vec4Q
deriving DecidableEq, Repr

def Vec4Q.scale (v : Vec4Q) (s : Rat) : Vec4Q :=
  ⟨v.x * s, v.y * s, v.z * s, v.w * s⟩

def Vec4Q.add (a b : Vec4Q) : Vec4Q :=
  ⟨a.x + b.x, a.y + b.y, a.z + b.z, a.w + b.w⟩

/-- `Mat4::mul_vec4`: linear combination of the columns. -/
def Mat4Q.mul_vec4 (m : Mat4Q) (v : Vec4Q) : Vec4Q :=
  (((m.x_axis.scale v.x).add (m.y_axis.scale v.y)).add (m.z_axis.scale v.z)).add (m.w_axis.scale v.w)

/-- `Mat4 * Mat4` (glam: each result column is `self.mul_vec4` of the
corresponding rhs column). -/
def Mat4Q.mul (a b : Mat4Q) : Mat4Q :=
  ⟨a.mul_vec4 b.x_axis, a.mul_vec4 b.y_axis, a.mul_vec4 b.z_axis, a.mul_vec4 b.w_axis⟩

/-- `Mat4::from_translation`. -/
def Mat4Q.from_translation (t : Vec3Q) : Mat4Q :=
  ⟨⟨1, 0, 0, 0⟩, ⟨0, 1, 0, 0⟩, ⟨0, 0, 1, 0⟩, ⟨t.x, t.y, t.z, 1⟩⟩

/-- `Mat4::from_quat` (glam's quaternion-to-rotation-matrix formula). -/
def Mat4Q.from_quat (q : QuatQ) : Mat4Q :=
  let x2 := q.x + q.x
  let y2 := q.y + q.y
  let z2 := q.z + q.z
  let xx := q.x * x2
  let xy := q.x * y2
  let xz := q.x * z2
  let yy := q.y * y2
  let yz := q.y * z2
  let zz := q.z * z2
  let wx := q.w * x2
  let wy := q.w * y2
  let wz := q.w * z2
  ⟨⟨1 - (yy + zz), xy + wz, xz - wy, 0⟩,
   ⟨xy - wz, 1 - (xx + zz), yz + wx, 0⟩,
   ⟨xz + wy, yz - wx, 1 - (xx + yy), 0⟩,
   ⟨0, 0, 0, 1⟩⟩

/-- `Mat4::to_cols_array_2d`: `[[f32; 4]; 4]` in column order. -/
def Mat4Q.to_cols_array_2d (m : Mat4Q) : List (List Rat) :=
  [[m.x_axis.x, m.x_axis.y, m.x_axis.z, m.x_axis.w],
   [m.y_axis.x, m.y_axis.y, m.y_axis.z, m.y_axis.w],
   [m.z_axis.x, m.z_axis.y, m.z_axis.z, m.z_axis.w],
   [m.w_axis.x, m.w_axis.y, m.w_axis.z, m.w_axis.w]]

/-- `Mat4::to_cols_array`: the 16 entries in column-major order. -/
def Mat4Q.to_cols_array (m : Mat4Q) : List Rat :=
  [m.x_axis.x, m.x_axis.y, m.x_axis.z, m.x_axis.w,
   m.y_axis.x, m.y_axis.y, m.y_axis.z, m.y_axis.w,
   m.z_axis.x, m.z_axis.y, m.z_axis.z, m.z_axis.w,
   m.w_axis.x, m.w_axis.y, m.w_axis.z, m.w_axis.w]

/- ===================================================================
   Instance data (src/data.rs, `InstanceData` / `RawInstanceData`).
   =================================================================== -/

structure InstanceData where
  position : Vec3Q
  rotation : QuatQ
deriving DecidableEq, Repr

structure RawInstanceData where
  model : List (List Rat)
deriving DecidableEq, Repr

/-- `InstanceData::to_raw` (src/data.rs): the model matrix is
`Mat4::from_translation(position) * Mat4::from_quat(rotation)`. -/
def InstanceData.to_raw (i : InstanceData) : RawInstanceData :=
  { model := ((Mat4Q.from_translation i.position).mul (Mat4Q.from_quat i.rotation)).to_cols_array_2d }

/-- Modelled from the spec: the flat instance-transform buffer (built by
`load_assets.rs`, which is declared in src/load/mod.rs but not present
under src/) holds one raw model matrix per instance, in list order. -/
def instances_to_raw (l : List InstanceData) : List RawInstanceData :=
  l.map InstanceData.to_raw

/- ===================================================================
   FPS accumulator (src/data.rs, `FpsCounter`).
   Instants and Durations are whole nanoseconds. `FpsCounter::step` calls
   `self.next_output_time.elapsed()`, which is `now - next_output_time`
   saturating at zero — exactly `Nat` subtraction. The source compares
   `elapsed().as_secs_f32() < 1.0`; the model compares `elapsed_nanos <
   1_000_000_000`, which agrees with the f32 comparison except inside the
   ~30 ns rounding band just below one second (999_999_971 ..
   999_999_999 ns), far from every input used below. `Duration / u32`
   truncates to whole nanoseconds, i.e. `Nat.div`. -/

structure FpsCounter where
  frame_count : Nat
  frame_time_total : Nat
  next_output_time : Nat
deriving DecidableEq, Repr

/-- `FpsCounter::step` (src/data.rs), with the hidden clock made explicit:
`now` is the instant at which `elapsed()` is evaluated. Returns the updated
counter and the emitted `(frame count, mean frame time)` report, if any. -/
def FpsCounter.step (c : FpsCounter) (now : Nat) (frame_time : Nat) :
    FpsCounter × Option (Nat × Nat) :=
  let frame_count := c.frame_count + 1
  let frame_time_total := c.frame_time_total + frame_time
  if now - c.next_output_time < 1000000000 then
    ({ c with frame_count := frame_count, frame_time_total := frame_time_total }, none)
  else
    let fps_output := frame_count
    let duration_output := frame_time_total / frame_count
    ({ frame_count := 0
       frame_time_total := 0
       next_output_time := c.next_output_time + 1000000000 },
     some (fps_output, duration_output))

/-- Feed a list of `(now, frame_time)` samples through `FpsCounter.step`,
collecting each call's output in order. -/
def FpsCounter.run (c : FpsCounter) : List (Nat × Nat) → FpsCounter × List (Option (Nat × Nat))
| [] => (c, [])
| s :: rest =>
  let (c1, out) := c.step s.1 s.2
  let (c2, outs) := c1.run rest
  (c2, out :: outs)

/-- The C7 scenario: sixty 16.667 ms samples, the k-th call happening
16.667 ms after the previous one, starting from the counter's creation
instant (time 0). The sixtieth call lands at 1.00002 s. -/
def fps_test_schedule : List (Nat × Nat) :=
  (List.range 60).map (fun k => ((k + 1) * 16667000, 16667000))

/- ===================================================================
   Render pass recording (src/render.rs).
   The embedding records, for each of the three passes, the
   `RenderPassDescriptor` the source builds and the ordered list of
   commands it issues on the pass handle. GPU handles are opaque names.
   =================================================================== -/

/-- `wgpu::LoadOp<V>`. -/
inductive GpuLoadOp (V : Type)
| clear (v : V)
| load
deriving DecidableEq, Repr

inductive GpuStoreOp
| store
| discard
deriving DecidableEq, Repr

/-- `wgpu::Color` (f64 channels, exact literals here). -/
structure GpuColor where
  r : Rat
  g : Rat
  b : Rat
  a : Rat
deriving DecidableEq, Repr

/-- `wgpu::Operations<V>`. -/
structure GpuOperations (V : Type) where
  load : GpuLoadOp V
  store : GpuStoreOp
deriving DecidableEq, Repr

/-- Opaque handle to a texture view / buffer / bind group / pipeline. -/
def GpuHandle : Type := String

structure ColorAttachment where
  view : GpuHandle
  ops : GpuOperations GpuColor

structure DepthStencilAttachment where
  view : GpuHandle
  depth_ops : Option (GpuOperations Rat)
  stencil_ops : Option (GpuOperations Rat)

structure RenderPassDescriptor where
  label : String
  color_attachments : List (Option ColorAttachment)
  depth_stencil_attachment : Option DepthStencilAttachment

/-- Commands issued on a render pass handle, in order. -/
inductive RenderCmd
| setPipeline (p : GpuHandle)
| setBindGroup (slot : Nat) (grp : GpuHandle)
| setVertexBuffer (slot : Nat) (buf : GpuHandle)
| setIndexBuffer (buf : GpuHandle)
/-- `draw_indexed(0..index_count, 0, 0..instance_count)`. -/
| drawIndexed (index_count : Nat) (instance_count : Nat)
/-- `draw(0..vertex_count, 0..instance_count)`. -/
| draw (vertex_count : Nat) (instance_count : Nat)

/-- `MeshRenderData` as consumed by src/render.rs (which reads
`mesh.binding_1` for the per-draw bind group; `material_id` is unused by
the recording functions and elided). -/
structure MeshRenderData where
  basic_vertex_buffer : GpuHandle
  extended_vertex_buffer : GpuHandle
  index_buffer : GpuHandle
  index_count : Nat
  binding_1 : GpuHandle

/-- `ModelsRenderData` (src/data.rs). -/
structure ModelsRenderData where
  instances_buffer : GpuHandle
  instances_count : Nat
  meshes : List MeshRenderData

/-- `DepthRenderData` (src/data.rs) holds only the texture view; the model
additionally carries the extent the texture was created with, which in the
source is implicit in the view's underlying texture. -/
structure DepthRenderData where
  view : GpuHandle
  size : Nat × Nat

/-- The fields of the render assets that src/render.rs and resize touch. -/
structure RenderAssets where
  depth : DepthRenderData
  example_models : ModelsRenderData

/-- The pipeline / shared-bind-group handles src/render.rs reads from
`program_data.render_pipelines`. -/
structure RenderPipelines where
  shadowmap_pipeline : GpuHandle
  shadowmap_bind_0 : GpuHandle
  models_pipeline : GpuHandle
  models_bind_0 : GpuHandle
  skybox_pipeline : GpuHandle
  skybox_bind_0 : GpuHandle

/-- One recorded render pass: its descriptor plus the commands issued on
its handle. `cmds = none` models a Rust panic while recording (the source
indexes `meshes[0]`, which panics on an empty mesh list). -/
structure RecordedPass where
  desc : RenderPassDescriptor
  cmds : Option (List RenderCmd)

/-- `render_shadowmap_pipeline` (src/render.rs): depth-only pass on the
depth buffer, cleared to 1.0; binds the shadow pipeline and bind group 0;
binds `meshes[0]`'s basic + extended vertex streams and the instance
buffer; one indexed draw across all instances. -/
def render_shadowmap_pipeline (assets : RenderAssets) (pipelines : RenderPipelines) : RecordedPass :=
  { desc :=
      { label := "Shadowmap Render Pass"
        color_attachments := []
        depth_stencil_attachment := some
          { view := assets.depth.view
            depth_ops := some { load := .clear 1, store := .store }
            stencil_ops := none } }
    cmds :=
      match assets.example_models.meshes.head? with
      | none => none
      | some mesh => some
        [ .setPipeline pipelines.shadowmap_pipeline
        , .setBindGroup 0 pipelines.shadowmap_bind_0
        , .setVertexBuffer 0 mesh.basic_vertex_buffer
        , .setVertexBuffer 1 mesh.extended_vertex_buffer
        , .setVertexBuffer 2 assets.example_models.instances_buffer
        , .setIndexBuffer mesh.index_buffer
        , .drawIndexed mesh.index_count assets.example_models.instances_count ] }

/-- `render_models_pipeline` (src/render.rs): color target is the acquired
surface view cleared to (0.1, 0.2, 0.3, 1.0), depth target is the depth
buffer cleared to 1.0; binds the models pipeline, bind group 0, and
`meshes[0]`'s own `binding_1` at slot 1; one indexed draw across all
instances. -/
def render_models_pipeline (assets : RenderAssets) (pipelines : RenderPipelines)
    (output_view : GpuHandle) : RecordedPass :=
  { desc :=
      { label := "Models Render Pass"
        color_attachments := [some
          { view := output_view
            ops := { load := .clear { r := 0.1, g := 0.2, b := 0.3, a := 1.0 }, store := .store } }]
        depth_stencil_attachment := some
          { view := assets.depth.view
            depth_ops := some { load := .clear 1, store := .store }
            stencil_ops := none } }
    cmds :=
      match assets.example_models.meshes.head? with
      | none => none
      | some mesh => some
        [ .setPipeline pipelines.models_pipeline
        , .setBindGroup 0 pipelines.models_bind_0
        , .setBindGroup 1 mesh.binding_1
        , .setVertexBuffer 0 mesh.basic_vertex_buffer
        , .setVertexBuffer 1 mesh.extended_vertex_buffer
        , .setVertexBuffer 2 assets.example_models.instances_buffer
        , .setIndexBuffer mesh.index_buffer
        , .drawIndexed mesh.index_count assets.example_models.instances_count ] }

/-- `render_skybox_pipeline` (src/render.rs): color and depth targets both
use `LoadOp::Load`; binds the skybox pipeline and bind group 0; a single
non-indexed draw of 3 vertices, 1 instance. -/
def render_skybox_pipeline (assets : RenderAssets) (pipelines : RenderPipelines)
    (output_view : GpuHandle) : RecordedPass :=
  { desc :=
      { label := "Skybox Render Pass"
        color_attachments := [some
          { view := output_view
            ops := { load := .load, store := .store } }]
        depth_stencil_attachment := some
          { view := assets.depth.view
            depth_ops := some { load := .load, store := .store }
            stencil_ops := none } }
    cmds := some
      [ .setPipeline pipelines.skybox_pipeline
      , .setBindGroup 0 pipelines.skybox_bind_0
      , .draw 3 1 ] }

/-- `render` (src/render.rs): the three passes recorded into one command
buffer, shadow → models → skybox, then one queue submission. -/
def render (assets : RenderAssets) (pipelines : RenderPipelines)
    (output_view : GpuHandle) : List RecordedPass :=
  [ render_shadowmap_pipeline assets pipelines
  , render_models_pipeline assets pipelines output_view
  , render_skybox_pipeline assets pipelines output_view ]

/-- Number of draw calls (indexed or not) in a recorded pass; 0 if the
recording panicked. -/
def RecordedPass.draw_count (p : RecordedPass) : Nat :=
  match p.cmds with
  | none => 0
  | some cmds => cmds.countP (fun c =>
      match c with
      | .drawIndexed _ _ => true
      | .draw _ _ => true
      | _ => false)

/- ===================================================================
   Surface configuration, resize, and the per-frame acquire/present
   state machine (src/main.rs, `resize` and `redraw_requested`).
   =================================================================== -/

/-- The width/height fields of `wgpu::SurfaceConfiguration` plus an opaque
stand-in for its remaining fields (format, present mode, alpha mode, ...),
which `resize` never touches. -/
structure SurfaceConfiguration where
  width : Nat
  height : Nat
  rest : String
deriving DecidableEq, Repr

/-- The parts of `RenderContextData` that `resize` and `redraw_requested`
read or write. `applied_configs` instruments the GPU surface itself: it is
the list of configurations passed to `drawable_surface.configure`, most
recent first (so its head is the surface's active configuration and its
length counts configure calls). `aspect_ratio` is `w / h` in f32; the ℚ
model yields 0 where the f32 division by zero yields inf/NaN, and no claim
reads the aspect ratio. -/
structure RenderContextState where
  surface_size : Nat × Nat
  aspect_ratio : Rat
  surface_config : SurfaceConfiguration
  applied_configs : List SurfaceConfiguration

/-- The parts of `ProgramData` that `resize` and `redraw_requested` touch. -/
structure ProgramState where
  render_context : RenderContextState
  render_assets : RenderAssets

/-- Modelled from the spec: `load_depth_render_data` lives in
`load_assets.rs`, declared in src/load/mod.rs but not present under src/.
Per §4.2 of the spec, on resize "only the depth buffer (and its view) is
recreated" and it "must recreate the depth buffer at exactly (W, H)"; the
surface configuration passed in carries that size. -/
def load_depth_render_data (ctx : RenderContextState) : DepthRenderData :=
  { view := "depth_view"
    size := (ctx.surface_config.width, ctx.surface_config.height) }

/-- `resize` (src/main.rs): unconditionally updates `surface_size`,
`aspect_ratio`, and the width/height of the CPU-side `surface_config`
struct; then, only when both dimensions are nonzero, configures the surface
with that struct and recreates the depth render data. Returns `Ok` in the
zero-size early-return; the nonzero branch is `Ok` whenever depth creation
succeeds (total in this model). -/
def resize (st : ProgramState) (new_size : Nat × Nat) : Except String ProgramState :=
  let rc := st.render_context
  let rc :=
    { rc with
      surface_size := new_size
      aspect_ratio := (new_size.1 : Rat) / (new_size.2 : Rat)
      surface_config := { rc.surface_config with width := new_size.1, height := new_size.2 } }
  if new_size.1 = 0 ∨ new_size.2 = 0 then
    .ok { st with render_context := rc }
  else
    let rc := { rc with applied_configs := rc.surface_config :: rc.applied_configs }
    .ok
      { render_context := rc
        render_assets := { st.render_assets with depth := load_depth_render_data rc } }

/-- `wgpu::SurfaceError` variants distinguished by `redraw_requested`.
`timeout` stands for every variant that is neither Lost, Outdated, nor
OutOfMemory and hence falls into the source's catch-all `Err(err) =>
return Err(err.into())` arm. -/
inductive SurfaceError
| lost
| outdated
| outOfMemory
| timeout
deriving DecidableEq, Repr

/-- Observable effects of one `redraw_requested` call. -/
structure FrameTrace where
  /-- number of `get_current_texture` calls made this frame. -/
  acquire_attempts : Nat
  /-- render passes recorded this frame. -/
  passes : List RecordedPass
  /-- command-buffer submissions to the queue this frame. -/
  submits : Nat
  /-- `surface_output.present()` calls this frame. -/
  presents : Nat
  /-- whether `event_loop.exit()` was called this frame. -/
  loop_exited : Bool
  /-- the `Result` returned to the event loop (an `Err` makes the caller in
  `window_event` log a fatal error and exit the loop). -/
  outcome : Except String Unit

/-- The successful tail of a frame: record the three passes, submit once,
(frame pacing and the FPS counter update are wall-clock effects modelled
separately by `FpsCounter.step`), notify the window, present. -/
def finish_frame (st : ProgramState) (pipelines : RenderPipelines)
    (output_view : GpuHandle) (attempts : Nat) : ProgramState × FrameTrace :=
  (st,
   { acquire_attempts := attempts
     passes := render st.render_assets pipelines output_view
     submits := 1
     presents := 1
     loop_exited := false
     outcome := .ok () })

/-- `redraw_requested` (src/main.rs), with swapchain acquisition made
explicit: `acquire n` is the result of the (n+1)-th `get_current_texture`
call this frame. Nothing is rendered when either surface dimension is
zero. On Lost/Outdated the source calls `resize` at the last known
`surface_size` and retries acquisition exactly once, propagating a retry
failure with `?`; on OutOfMemory it exits the event loop and returns
`Ok`; any other error propagates immediately. -/
def redraw_requested (st : ProgramState) (pipelines : RenderPipelines)
    (acquire : Nat → Except SurfaceError GpuHandle) : ProgramState × FrameTrace :=
  let size := st.render_context.surface_size
  if 0 < size.1 ∧ 0 < size.2 then
    match acquire 0 with
    | .ok output_view => finish_frame st pipelines output_view 1
    | .error .lost | .error .outdated =>
      match resize st st.render_context.surface_size with
      | .error e =>
        (st,
         { acquire_attempts := 1, passes := [], submits := 0, presents := 0
           loop_exited := false, outcome := .error e })
      | .ok st1 =>
        match acquire 1 with
        | .ok output_view => finish_frame st1 pipelines output_view 2
        | .error _ =>
          (st1,
           { acquire_attempts := 2, passes := [], submits := 0, presents := 0
             loop_exited := false, outcome := .error "failed to acquire surface texture" })
    | .error .outOfMemory =>
      (st,
       { acquire_attempts := 1, passes := [], submits := 0, presents := 0
         loop_exited := true, outcome := .ok () })
    | .error .timeout =>
      (st,
       { acquire_attempts := 1, passes := [], submits := 0, presents := 0
         loop_exited := false, outcome := .error "surface error" })
  else
    (st,
     { acquire_attempts := 0, passes := [], submits := 0, presents := 0
       loop_exited := false, outcome := .ok () })

/- ===================================================================
   Camera GPU data (src/data.rs, `CameraData::build_gpu_data`).
   The transcendental pieces of the external `glam` math (sine, cosine,
   square root, and the 4×4 matrix inverse) are interface parameters: the
   spec declares CPU-side transform math an external collaborator, and
   the claims below hold for every implementation of those parameters.
   =================================================================== -/

structure CameraData where
  pos : Vec3Q
  rot_xz : Rat
  rot_y : Rat
  fov : Rat
  near : Rat
  far : Rat

def Vec3Q.add (a b : Vec3Q) : Vec3Q := ⟨a.x + b.x, a.y + b.y, a.z + b.z⟩

def Vec3Q.sub (a b : Vec3Q) : Vec3Q := ⟨a.x - b.x, a.y - b.y, a.z - b.z⟩

def Vec3Q.dot (a b : Vec3Q) : Rat := a.x * b.x + a.y * b.y + a.z * b.z

def Vec3Q.cross (a b : Vec3Q) : Vec3Q :=
  ⟨a.y * b.z - a.z * b.y, a.z * b.x - a.x * b.z, a.x * b.y - a.y * b.x⟩

/-- `Vec3::normalize` with the square root passed in (division by a zero
length yields 0 in ℚ where f32 yields inf/NaN; no claim depends on it). -/
def Vec3Q.normalize (fsqrt : Rat → Rat) (v : Vec3Q) : Vec3Q :=
  let len := fsqrt (v.dot v)
  ⟨v.x / len, v.y / len, v.z / len⟩

/-- `glam::Mat4::perspective_rh(fov_y, aspect, z_near, z_far)` with sine and
cosine passed in. -/
def perspective_rh (fcos fsin : Rat → Rat) (fov_y aspect z_near z_far : Rat) : Mat4Q :=
  let h := fcos (fov_y / 2) / fsin (fov_y / 2)
  let w := h / aspect
  let r := z_far / (z_near - z_far)
  ⟨⟨w, 0, 0, 0⟩, ⟨0, h, 0, 0⟩, ⟨0, 0, r, -1⟩, ⟨0, 0, r * z_near, 0⟩⟩

/-- `glam::Mat4::look_at_rh(eye, center, up)` (via `look_to_rh`), with the
square root passed in. -/
def look_at_rh (fsqrt : Rat → Rat) (eye center up : Vec3Q) : Mat4Q :=
  let f := (center.sub eye).normalize fsqrt
  let s := (f.cross up).normalize fsqrt
  let u := s.cross f
  ⟨⟨s.x, u.x, -f.x, 0⟩,
   ⟨s.y, u.y, -f.y, 0⟩,
   ⟨s.z, u.z, -f.z, 0⟩,
   ⟨-(eye.dot s), -(eye.dot u), eye.dot f, 1⟩⟩

/-- `CameraData::build_gpu_data` (src/data.rs): the projection is
`perspective_rh(self.fov, aspect_ratio, 1.0, 50.0)` — the z-near and z-far
arguments are the literals 1.0 and 50.0, not `self.near` / `self.far`.
The output is the 48-float array [proj × view | proj⁻¹ | view] in column
order. `finv` is glam's `Mat4::inverse`, an interface parameter. -/
def CameraData.build_gpu_data (fcos fsin fsqrt : Rat → Rat) (finv : Mat4Q → Mat4Q)
    (c : CameraData) (aspect_ratio : Rat) : List Rat :=
  let proj := perspective_rh fcos fsin c.fov aspect_ratio 1 50
  let target := c.pos.add
    ⟨fcos c.rot_xz * fcos c.rot_y, fsin c.rot_y, fsin c.rot_xz * fcos c.rot_y⟩
  let view := look_at_rh fsqrt c.pos target ⟨0, 1, 0⟩
  let inv_proj := finv proj
  let proj_view := proj.mul view
  proj_view.to_cols_array ++ inv_proj.to_cols_array ++ view.to_cols_array

/- ===================================================================
   Concrete sample data used by witnesses and counterexamples.
   =================================================================== -/

def sample_mesh (tag : String) : MeshRenderData :=
  { basic_vertex_buffer := tag ++ "_basic"
    extended_vertex_buffer := tag ++ "_ext"
    index_buffer := tag ++ "_idx"
    index_count := 36
    binding_1 := tag ++ "_bind1" }

/-- Render assets whose mesh list has two entries. -/
def sample_assets_two_meshes : RenderAssets :=
  { depth := { view := "depth_view", size := (1280, 720) }
    example_models :=
      { instances_buffer := "instances"
        instances_count := 20000
        meshes := [sample_mesh "m0", sample_mesh "m1"] } }

def sample_pipelines : RenderPipelines :=
  { shadowmap_pipeline := "shadow_p", shadowmap_bind_0 := "shadow_b0"
    models_pipeline := "models_p", models_bind_0 := "models_b0"
    skybox_pipeline := "skybox_p", skybox_bind_0 := "skybox_b0" }

def sample_state : ProgramState :=
  { render_context :=
      { surface_size := (1280, 720)
        aspect_ratio := 1280 / 720
        surface_config := { width := 1280, height := 720, rest := "cfg" }
        applied_configs := [{ width := 1280, height := 720, rest := "cfg" }] }
    render_assets := sample_assets_two_meshes }

/-- Acquisition oracle: surface lost on the first call, an unrecoverable
error on the retry. -/
def acquire_lost_then_fail : Nat → Except SurfaceError GpuHandle :=
  fun n => match n with
  | 0 => .error .lost
  | _ => .error .timeout

/-- Acquisition oracle: out of memory. -/
def acquire_oom : Nat → Except SurfaceError GpuHandle := fun _ => .error .outOfMemory

/- ===================================================================
   Claim theorems.
   =================================================================== -/

/-- C1: when acquisition fails with surface-lost or surface-outdated and
both surface dimensions are nonzero, `redraw_requested` performs exactly
one surface reconfiguration (the configure-call history grows by exactly
one entry), the applied configuration carries the last known surface size,
exactly one retry of acquisition happens (two acquisition calls in total,
never more); and if the retry also fails, the error propagates to the
caller as fatal with nothing presented or submitted. -/
theorem c1_surface_lost_one_reconfigure_one_retry
    (st : ProgramState) (p : RenderPipelines)
    (acquire : Nat → Except SurfaceError GpuHandle)
    (hw : 0 < st.render_context.surface_size.1)
    (hh : 0 < st.render_context.surface_size.2)
    (hfail : acquire 0 = .error .lost ∨ acquire 0 = .error .outdated) :
    ((redraw_requested st p acquire).1.render_context.applied_configs.length
      = st.render_context.applied_configs.length + 1)
    ∧ ((redraw_requested st p acquire).1.render_context.applied_configs.head?
      = some { st.render_context.surface_config with
                width := st.render_context.surface_size.1
                height := st.render_context.surface_size.2 })
    ∧ (redraw_requested st p acquire).2.acquire_attempts = 2
    ∧ (∀ e, acquire 1 = .error e →
        (redraw_requested st p acquire).2.outcome = .error "failed to acquire surface texture"
        ∧ (redraw_requested st p acquire).2.presents = 0
        ∧ (redraw_requested st p acquire).2.submits = 0) := by
  have hz : ¬(st.render_context.surface_size.1 = 0 ∨ st.render_context.surface_size.2 = 0) := by
    omega
  rcases hfail with h0 | h0 <;>
  · rcases h1 : acquire 1 with e | v <;>
      simp [redraw_requested, h0, h1, hw, hh, resize, if_neg hz, finish_frame]

/-- C1 witness: a concrete 1280×720 state with a lost-then-failing
acquisition oracle. -/
theorem c1_surface_lost_one_reconfigure_one_retry_witness :
    ((redraw_requested sample_state sample_pipelines acquire_lost_then_fail).1.render_context.applied_configs.length
      = sample_state.render_context.applied_configs.length + 1)
    ∧ ((redraw_requested sample_state sample_pipelines acquire_lost_then_fail).2.acquire_attempts = 2)
    ∧ ((redraw_requested sample_state sample_pipelines acquire_lost_then_fail).2.outcome
      = .error "failed to acquire surface texture")
    ∧ ((redraw_requested sample_state sample_pipelines acquire_lost_then_fail).2.presents = 0) := by
  have h := c1_surface_lost_one_reconfigure_one_retry sample_state sample_pipelines
    acquire_lost_then_fail (by decide) (by decide) (Or.inl rfl)
  exact ⟨h.1, h.2.2.1, (h.2.2.2 .timeout rfl).1, (h.2.2.2 .timeout rfl).2.1⟩

/-- C2: when acquisition fails with out-of-memory (and the surface has
nonzero size, so rendering was attempted at all), `redraw_requested` exits
the event loop and returns `Ok` having recorded zero render passes, made
zero submissions, and called present zero times; the program state is left
untouched. -/
theorem c2_out_of_memory_terminates_loop
    (st : ProgramState) (p : RenderPipelines)
    (acquire : Nat → Except SurfaceError GpuHandle)
    (hw : 0 < st.render_context.surface_size.1)
    (hh : 0 < st.render_context.surface_size.2)
    (hoom : acquire 0 = .error .outOfMemory) :
    redraw_requested st p acquire =
      (st, { acquire_attempts := 1, passes := [], submits := 0, presents := 0
             loop_exited := true, outcome := .ok () }) := by
  simp [redraw_requested, hoom, hw, hh]

/-- C2 witness: the concrete 1280×720 state with an out-of-memory oracle. -/
theorem c2_out_of_memory_terminates_loop_witness :
    redraw_requested sample_state sample_pipelines acquire_oom =
      (sample_state, { acquire_attempts := 1, passes := [], submits := 0, presents := 0
                       loop_exited := true, outcome := .ok () }) :=
  c2_out_of_memory_terminates_loop sample_state sample_pipelines acquire_oom
    (by decide) (by decide) rfl

/-- C3: a resize to a size with either dimension zero succeeds while
leaving the render assets (hence the depth buffer) untouched and applying
no surface reconfiguration; a resize to a size with both dimensions
nonzero succeeds and recreates the depth buffer at exactly the new
(width, height). -/
theorem c3_resize_zero_skips_nonzero_recreates_depth
    (st : ProgramState) (w h : Nat) :
    ((w = 0 ∨ h = 0) → ∃ st1, resize st (w, h) = .ok st1
      ∧ st1.render_assets = st.render_assets
      ∧ st1.render_context.applied_configs = st.render_context.applied_configs)
    ∧ (0 < w → 0 < h → ∃ st1, resize st (w, h) = .ok st1
      ∧ st1.render_assets.depth.size = (w, h)) := by
  constructor
  · intro hz
    simp only [resize]
    split
    · exact ⟨_, rfl, rfl, rfl⟩
    · next hcon => exact absurd hz hcon
  · intro hw hh
    simp only [resize]
    split
    · next hcon => rcases hcon with h1 | h1 <;> omega
    · exact ⟨_, rfl, rfl⟩

/-- C3 witness: resizing the concrete state to (0, 450) and to (800, 450). -/
theorem c3_resize_zero_skips_nonzero_recreates_depth_witness :
    (∃ st1, resize sample_state (0, 450) = .ok st1
      ∧ st1.render_assets = sample_state.render_assets
      ∧ st1.render_context.applied_configs = sample_state.render_context.applied_configs)
    ∧ (∃ st1, resize sample_state (800, 450) = .ok st1
      ∧ st1.render_assets.depth.size = (800, 450)) :=
  ⟨(c3_resize_zero_skips_nonzero_recreates_depth sample_state 0 450).1 (Or.inl rfl),
   (c3_resize_zero_skips_nonzero_recreates_depth sample_state 800 450).2
     (by decide) (by decide)⟩

/-- C4: in every recorded frame, the shadow pass's depth attachment and
the opaque-model pass's depth attachment each use a clear load operation
with clear value 1.0, the opaque-model pass clears its color attachment to
the fixed background color (0.1, 0.2, 0.3, 1.0), and the skybox pass uses
a load (preserve) operation for both its color and its depth attachment. -/
theorem c4_pass_load_operations
    (assets : RenderAssets) (pipelines : RenderPipelines) (view : GpuHandle) :
    ((render_shadowmap_pipeline assets pipelines).desc.depth_stencil_attachment = some
      { view := assets.depth.view
        depth_ops := some { load := .clear 1, store := .store }
        stencil_ops := none })
    ∧ ((render_models_pipeline assets pipelines view).desc.depth_stencil_attachment = some
      { view := assets.depth.view
        depth_ops := some { load := .clear 1, store := .store }
        stencil_ops := none })
    ∧ ((render_models_pipeline assets pipelines view).desc.color_attachments = [some
      { view := view
        ops := { load := .clear { r := 0.1, g := 0.2, b := 0.3, a := 1.0 }, store := .store } }])
    ∧ ((render_skybox_pipeline assets pipelines view).desc.color_attachments = [some
      { view := view, ops := { load := .load, store := .store } }])
    ∧ ((render_skybox_pipeline assets pipelines view).desc.depth_stencil_attachment = some
      { view := assets.depth.view
        depth_ops := some { load := .load, store := .store }
        stencil_ops := none }) :=
  ⟨rfl, rfl, rfl, rfl, rfl⟩

/-- C5 counterexample: with a mesh list of length 2, the shadow pass and
the opaque-model pass each record exactly one draw call, not one per mesh
— the second mesh is never drawn, refuting "a draw for every mesh in the
list". -/
theorem c5_counterexample_second_mesh_not_drawn :
    sample_assets_two_meshes.example_models.meshes.length = 2
    ∧ (render_shadowmap_pipeline sample_assets_two_meshes sample_pipelines).draw_count = 1
    ∧ (render_models_pipeline sample_assets_two_meshes sample_pipelines "surface_view").draw_count = 1 :=
  ⟨rfl, rfl, rfl⟩

/-- C5 amended: whenever the mesh list is nonempty, the shadow pass and
the opaque-model pass each record exactly one draw, using only the first
mesh of the list (drawing all its indices across all instances), and the
opaque-model pass binds that first mesh's own per-draw binding set
(`meshes[0]` paired with `meshes[0].binding_1`); the remaining meshes are
not drawn. -/
theorem c5_amended_only_first_mesh_drawn
    (assets : RenderAssets) (pipelines : RenderPipelines) (view : GpuHandle)
    (mesh : MeshRenderData) (rest : List MeshRenderData)
    (hm : assets.example_models.meshes = mesh :: rest) :
    ((render_shadowmap_pipeline assets pipelines).cmds = some
      [ .setPipeline pipelines.shadowmap_pipeline
      , .setBindGroup 0 pipelines.shadowmap_bind_0
      , .setVertexBuffer 0 mesh.basic_vertex_buffer
      , .setVertexBuffer 1 mesh.extended_vertex_buffer
      , .setVertexBuffer 2 assets.example_models.instances_buffer
      , .setIndexBuffer mesh.index_buffer
      , .drawIndexed mesh.index_count assets.example_models.instances_count ])
    ∧ ((render_models_pipeline assets pipelines view).cmds = some
      [ .setPipeline pipelines.models_pipeline
      , .setBindGroup 0 pipelines.models_bind_0
      , .setBindGroup 1 mesh.binding_1
      , .setVertexBuffer 0 mesh.basic_vertex_buffer
      , .setVertexBuffer 1 mesh.extended_vertex_buffer
      , .setVertexBuffer 2 assets.example_models.instances_buffer
      , .setIndexBuffer mesh.index_buffer
      , .drawIndexed mesh.index_count assets.example_models.instances_count ])
    ∧ (render_shadowmap_pipeline assets pipelines).draw_count = 1
    ∧ (render_models_pipeline assets pipelines view).draw_count = 1 := by
  simp [render_shadowmap_pipeline, render_models_pipeline, hm, RecordedPass.draw_count,
    List.countP, List.countP.go]

/-- C5 amended witness: the two-mesh sample assets. -/
theorem c5_amended_only_first_mesh_drawn_witness :
    ((render_shadowmap_pipeline sample_assets_two_meshes sample_pipelines).cmds = some
      [ .setPipeline sample_pipelines.shadowmap_pipeline
      , .setBindGroup 0 sample_pipelines.shadowmap_bind_0
      , .setVertexBuffer 0 (sample_mesh "m0").basic_vertex_buffer
      , .setVertexBuffer 1 (sample_mesh "m0").extended_vertex_buffer
      , .setVertexBuffer 2 sample_assets_two_meshes.example_models.instances_buffer
      , .setIndexBuffer (sample_mesh "m0").index_buffer
      , .drawIndexed (sample_mesh "m0").index_count sample_assets_two_meshes.example_models.instances_count ])
    ∧ ((render_models_pipeline sample_assets_two_meshes sample_pipelines "surface_view").cmds = some
      [ .setPipeline sample_pipelines.models_pipeline
      , .setBindGroup 0 sample_pipelines.models_bind_0
      , .setBindGroup 1 (sample_mesh "m0").binding_1
      , .setVertexBuffer 0 (sample_mesh "m0").basic_vertex_buffer
      , .setVertexBuffer 1 (sample_mesh "m0").extended_vertex_buffer
      , .setVertexBuffer 2 sample_assets_two_meshes.example_models.instances_buffer
      , .setIndexBuffer (sample_mesh "m0").index_buffer
      , .drawIndexed (sample_mesh "m0").index_count sample_assets_two_meshes.example_models.instances_count ])
    ∧ (render_shadowmap_pipeline sample_assets_two_meshes sample_pipelines).draw_count = 1
    ∧ (render_models_pipeline sample_assets_two_meshes sample_pipelines "surface_view").draw_count = 1 :=
  c5_amended_only_first_mesh_drawn sample_assets_two_meshes sample_pipelines "surface_view"
    (sample_mesh "m0") [sample_mesh "m1"] rfl

/-- C6: for every instance list, the raw instance-transform data holds
exactly one matrix per instance, and the i-th matrix is
`Mat4::from_translation(position) * Mat4::from_quat(rotation)` of the i-th
instance — translation times rotation, in that order. -/
theorem c6_instance_matrices_translation_times_rotation
    (l : List InstanceData) (i : Nat) :
    (instances_to_raw l).length = l.length
    ∧ (instances_to_raw l)[i]? = l[i]?.map (fun inst =>
        { model := ((Mat4Q.from_translation inst.position).mul
            (Mat4Q.from_quat inst.rotation)).to_cols_array_2d }) := by
  have hmap : ∀ o : Option InstanceData,
      o.map InstanceData.to_raw = o.map (fun inst =>
        ({ model := ((Mat4Q.from_translation inst.position).mul
            (Mat4Q.from_quat inst.rotation)).to_cols_array_2d } : RawInstanceData)) := by
    intro o
    cases o <;> rfl
  constructor
  · simp [instances_to_raw]
  · simp [instances_to_raw, hmap]

/-- C7: feeding a fresh counter (created at instant 0) sixty 16.667 ms
samples spaced 16.667 ms apart — a one-second window, the sixtieth call at
1.00002 s — returns `none` on the first 59 calls and a report on exactly
the last one, carrying frame count 60 and mean frame time 16 667 000 ns =
(60 × 16 667 000) / 60 ns (the accumulated total divided by 60, ≈ 16.667
ms); immediately afterwards the frame count and accumulated frame time are
both zero. -/
theorem c7_fps_accumulator_one_report_then_reset :
    FpsCounter.run ⟨0, 0, 0⟩ fps_test_schedule =
      (⟨0, 0, 1000000000⟩, List.replicate 59 none ++ [some (60, 16667000)]) := by
  decide

/-- C8 counterexample: an input whose hjson decoding fails makes
`load_engine_config` return an error, refuting "for every configuration
input, engine-config loading never returns an error". -/
theorem c8_counterexample_decode_failure_is_error :
    load_engine_config (.error ()) = .error .decodeFailed := rfl

/-- C8 amended: for every configuration input that decodes as an hjson
map and avoids the panicking values — a `config_version` entry reading as
0 (which panics in the updater loop), and a `min_frame_time` that is
negative or at least 2^64 seconds (either of which panics in
`Duration::from_secs_f64`) — loading succeeds; and every wrong-typed,
unknown-enum, or missing entry is replaced by its documented default: the
empty map and a map whose six entries are all wrong-typed or unknown both
load to exactly the default configuration. -/
theorem c8_amended_decoded_inputs_fall_back_to_defaults :
    (load_engine_config (.ok []) = .ok default_engine_config)
    ∧ (load_engine_config (.ok
        [("rendering_backend", .i64 5), ("present_mode", .str "bogus"),
         ("desired_frame_latency", .str "x"), ("compress_textures", .i64 1),
         ("shadowmap_size", .bool true), ("min_frame_time", .str "q")])
       = .ok default_engine_config)
    ∧ ∀ (m : ConfigMap),
        1 ≤ usize_of_i64 (read_hjson_i64 m "config_version" (Int.ofNat latest_config_version)) →
        0 ≤ read_hjson_f64 m "min_frame_time" 0.002 →
        read_hjson_f64 m "min_frame_time" 0.002 < 18446744073709551616 →
        (load_engine_config (.ok m)).isOk = true := by
  refine ⟨?_, ?_, ?_⟩
  · simp [load_engine_config, read_hjson_str, read_hjson_i64, read_hjson_f64, read_hjson_bool,
      ConfigMap.get, default_engine_config, usize_of_i64, u32_of_i64, latest_config_version,
      config_updater_count, rust_to_lowercase, backend_of_string, present_mode_of_string,
      HjsonValue.as_str, HjsonValue.as_i64, HjsonValue.as_f64, HjsonValue.as_bool]
    norm_num
  · simp [load_engine_config, read_hjson_str, read_hjson_i64, read_hjson_f64, read_hjson_bool,
      ConfigMap.get, default_engine_config, usize_of_i64, u32_of_i64, latest_config_version,
      config_updater_count, rust_to_lowercase, backend_of_string, present_mode_of_string,
      HjsonValue.as_str, HjsonValue.as_i64, HjsonValue.as_f64, HjsonValue.as_bool,
      List.lookup]
    norm_num
  · intro m h1 h2 h3
    simp only [load_engine_config]
    rw [if_neg (not_lt.mpr (by simpa [latest_config_version, config_updater_count] using h1)),
      if_neg (not_or.mpr ⟨not_lt.mpr h2, not_le.mpr h3⟩)]
    rfl

/-- C8 amended witness: a concrete decoded map (an unknown-free subset of
entries) loads successfully. -/
theorem c8_amended_decoded_inputs_fall_back_to_defaults_witness :
    (load_engine_config (.ok [("present_mode", .str "mailbox"), ("shadowmap_size", .i64 2048)])).isOk = true := by
  have h := c8_amended_decoded_inputs_fall_back_to_defaults.2.2
    [("present_mode", .str "mailbox"), ("shadowmap_size", .i64 2048)]
  have e1 : read_hjson_f64
      [("present_mode", .str "mailbox"), ("shadowmap_size", .i64 2048)]
      "min_frame_time" 0.002 = 0.002 := rfl
  refine h (by decide) ?_ ?_ <;> rw [e1] <;> norm_num

/-- C9: the camera GPU data is built with a projection whose z-near and
z-far arguments are the literals 1.0 and 50.0 (see
`CameraData.build_gpu_data`), ignoring the camera's stored `near` and
`far` fields entirely: for every implementation of the external math
functions, every aspect ratio, and every camera state, changing only
`near` and `far` leaves the produced 48-float GPU data identical. -/
theorem c9_camera_gpu_data_ignores_near_far
    (fcos fsin fsqrt : Rat → Rat) (finv : Mat4Q → Mat4Q)
    (c : CameraData) (n f a : Rat) :
    CameraData.build_gpu_data fcos fsin fsqrt finv { c with near := n, far := f } a =
    CameraData.build_gpu_data fcos fsin fsqrt finv c a := rfl

/-- C10: the configuration string "auto_no_vsync" resolves to the same
present mode as "auto_vsync" (AutoVsync), so any two decoded configuration
maps that differ only in that entry's value — "auto_vsync" versus
"auto_no_vsync" — load to identical engine configurations. -/
theorem c10_auto_no_vsync_resolves_like_auto_vsync (m : ConfigMap) :
    load_engine_config (.ok (("present_mode", .str "auto_vsync") :: m)) =
    load_engine_config (.ok (("present_mode", .str "auto_no_vsync") :: m)) := by
  have h : present_mode_of_string (rust_to_lowercase "auto_vsync") =
      present_mode_of_string (rust_to_lowercase "auto_no_vsync") := by decide
  simp only [load_engine_config, read_hjson_str, read_hjson_i64, read_hjson_f64,
    read_hjson_bool, ConfigMap.get, List.lookup, HjsonValue.as_str, HjsonValue.as_i64,
    HjsonValue.as_f64, HjsonValue.as_bool]
  simp
  rw [h]
